import Mathlib

/-!
Verification of the bosch_locator_bridge protocol bridge.

Shallow embedding of the code in
`src/bosch_locator_bridge/src/locator_bridge_node.cpp` and
`src/bosch_locator_bridge/src/receiving_interface.cpp`, together with
theorems settling the specified properties.
-/

namespace LocatorBridge

/-! ### Module version registry and check
(locator_bridge_node.cpp, lines 42-63 and 250-279) -/

/-- A reported or required module-version table: module name mapped to
(major, minor).  The appliance reports an unordered map; we embed it as an
association list looked up by key. -/
abbrev ModuleVersions := List (String × Int × Int)

/-- The static registry `REQUIRED_MODULE_VERSIONS` from
locator_bridge_node.cpp lines 42-63 (commented-out entries omitted, as in the
source). -/
def REQUIRED_MODULE_VERSIONS : ModuleVersions :=
  [("AboutModules", 5, 0),
   ("Session", 3, 1),
   ("Licensing", 6, 1),
   ("Config", 5, 0),
   ("AboutBuild", 3, 0),
   ("Certificate", 3, 0),
   ("System", 3, 1),
   ("ClientControl", 3, 1),
   ("ClientRecording", 4, 0),
   ("ClientMap", 4, 0),
   ("ClientLocalization", 6, 0),
   ("ClientGlobalAlign", 4, 0),
   ("ClientSensor", 5, 1)]

/-- `module_versions.find(module_name)` on the reported table. -/
def lookupModule (actual : ModuleVersions) (name : String) : Option (Int × Int) :=
  match actual with
  | [] => none
  | (n, maj, mi) :: rest => if n = name then some (maj, mi) else lookupModule rest name

/-- The loop body of `LocatorBridgeNode::check_module_versions`
(locator_bridge_node.cpp lines 254-277), recursing over the required
registry: a missing module returns false; a found module must have equal
major version and minor version at least the required one, otherwise false. -/
def checkModulesAgainst (required : ModuleVersions) (actual : ModuleVersions) : Bool :=
  match required with
  | [] => true
  | (name, rmaj, rmin) :: rest =>
    match lookupModule actual name with
    | none => false
    | some (amaj, amin) =>
      if amaj = rmaj ∧ rmin ≤ amin then checkModulesAgainst rest actual else false

/-- `LocatorBridgeNode::check_module_versions` (locator_bridge_node.cpp
lines 250-279). -/
def check_module_versions (actual : ModuleVersions) : Bool :=
  checkModulesAgainst REQUIRED_MODULE_VERSIONS actual

/-- Compatibility of the reported table with one required entry: the module
is present, its major version equals the required major, and its minor
version is at least the required minimum. -/
def moduleOk (actual : ModuleVersions) (req : String × Int × Int) : Prop :=
  ∃ v : Int × Int, lookupModule actual req.1 = some v ∧ v.1 = req.2.1 ∧ req.2.2 ≤ v.2

lemma checkAgainst_iff (required : ModuleVersions) (actual : ModuleVersions) :
    checkModulesAgainst required actual = true ↔ ∀ req ∈ required, moduleOk actual req := by
  induction required with
  | nil => simp [checkModulesAgainst]
  | cons head rest ih =>
    obtain ⟨name, rmaj, rmin⟩ := head
    rw [checkModulesAgainst]
    cases h : lookupModule actual name with
    | none =>
      simp only [List.forall_mem_cons]
      constructor
      · intro hfalse; cases hfalse
      · rintro ⟨⟨v, hv, _⟩, -⟩
        rw [h] at hv; cases hv
    | some v =>
      obtain ⟨amaj, amin⟩ := v
      by_cases hv : amaj = rmaj ∧ rmin ≤ amin
      · simp only [if_pos hv, ih, List.forall_mem_cons]
        constructor
        · intro hrest
          exact ⟨⟨(amaj, amin), h, hv.1, hv.2⟩, hrest⟩
        · exact fun hall => hall.2
      · simp only [if_neg hv, List.forall_mem_cons]
        constructor
        · intro hfalse; cases hfalse
        · rintro ⟨⟨w, hw, hw1, hw2⟩, -⟩
          rw [h] at hw
          cases hw
          exact absurd ⟨hw1, hw2⟩ hv

lemma checkAgainst_congr (required : ModuleVersions) (a1 a2 : ModuleVersions)
    (h : ∀ req ∈ required, lookupModule a1 req.1 = lookupModule a2 req.1) :
    checkModulesAgainst required a1 = checkModulesAgainst required a2 := by
  induction required with
  | nil => rfl
  | cons head rest ih =>
    obtain ⟨name, rmaj, rmin⟩ := head
    have hhead := h _ (List.mem_cons_self _ _)
    have hrest : ∀ req ∈ rest, lookupModule a1 req.1 = lookupModule a2 req.1 :=
      fun req hreq => h req (List.mem_cons_of_mem _ hreq)
    rw [checkModulesAgainst, checkModulesAgainst, hhead]
    cases lookupModule a2 name with
    | none => rfl
    | some v =>
      obtain ⟨amaj, amin⟩ := v
      show (if amaj = rmaj ∧ rmin ≤ amin then checkModulesAgainst rest a1 else false) =
        (if amaj = rmaj ∧ rmin ≤ amin then checkModulesAgainst rest a2 else false)
      by_cases hv : amaj = rmaj ∧ rmin ≤ amin
      · rw [if_pos hv, if_pos hv, ih hrest]
      · rw [if_neg hv, if_neg hv]

/-- C2: the module version check returns true exactly when every module of
the static required-module registry is reported with equal major version and
minor version greater than or equal to the required minimum (so a missing
module, a differing major, or a too-small minor makes it return false); and
modules reported by the appliance but absent from the registry have no
effect: two reports agreeing on the registry's module names yield the same
result. -/
theorem check_module_versions_spec :
    ∀ actual : ModuleVersions,
      (check_module_versions actual = true ↔
        ∀ req ∈ REQUIRED_MODULE_VERSIONS, moduleOk actual req) ∧
      ∀ a2 : ModuleVersions,
        (∀ req ∈ REQUIRED_MODULE_VERSIONS, lookupModule actual req.1 = lookupModule a2 req.1) →
        check_module_versions actual = check_module_versions a2 :=
  fun actual =>
    ⟨checkAgainst_iff _ _, fun a2 h => checkAgainst_congr _ actual a2 h⟩

/-- A report that is the registry itself plus one module absent from the
registry. -/
def reportedWithExtra : ModuleVersions :=
  ("SomeUnregisteredModule", 1, 0) :: REQUIRED_MODULE_VERSIONS

theorem check_module_versions_spec_witness :
    check_module_versions reportedWithExtra = check_module_versions REQUIRED_MODULE_VERSIONS :=
  (check_module_versions_spec reportedWithExtra).2 REQUIRED_MODULE_VERSIONS (by decide)

/-! ### Covariance packing
(receiving_interface.cpp, `ClientLocalizationPoseInterface::tryToParseData`,
lines 306-334) -/

/-- The 36-element row-major covariance array of the published
pose-with-uncertainty message: default-initialized to zeros, then positions
0, 1, 5, 7, 11, 35 assigned from the six decoded covariance values
(receiving_interface.cpp lines 322-327). -/
def packCovariance (c0 c1 c2 c3 c4 c5 : ℚ) : List ℚ :=
  ((((((List.replicate 36 (0 : ℚ)).set 0 c0).set 1 c1).set 5 c2).set 7 c3).set 11 c4).set 35 c5

/-- C3: for every decoded localization-pose datagram carrying six covariance
values, the published 6x6 covariance matrix (36-element row-major array) has
exactly positions 0, 1, 5, 7, 11, 35 set to those values respectively and
every other position equal to zero. -/
theorem covariance_packing_spec :
    ∀ (c0 c1 c2 c3 c4 c5 : ℚ) (i : Fin 36),
      (packCovariance c0 c1 c2 c3 c4 c5).getD i.val 0 =
        if i.val = 0 then c0
        else if i.val = 1 then c1
        else if i.val = 5 then c2
        else if i.val = 7 then c3
        else if i.val = 11 then c4
        else if i.val = 35 then c5
        else 0 := by
  intro c0 c1 c2 c3 c4 c5 i
  fin_cases i <;> rfl

/-! ### Seed pose frame gate
(locator_bridge_node.cpp, `LocatorBridgeNode::setSeedCallback`,
lines 398-422) -/

/-- Modelled from the spec: the constant `MAP_FRAME_ID` is declared in a
header that is not part of the given sources; the spec fixes it as the
"map" reference frame. -/
def MAP_FRAME_ID : String := "map"

/-- One operation issued against the appliance session client. -/
inductive RpcOp where
  | getSessionQuery : RpcOp
  | call (method : String) : RpcOp
deriving DecidableEq

/-- Whether an operation is an appliance call (as opposed to building a
session query). -/
def isApplianceCall : RpcOp → Bool
  | .call _ => true
  | _ => false

/-- Result of one seed-pose request: the session-client operations issued
and whether the wrong-frame error was logged. -/
structure SeedResult where
  ops : List RpcOp
  errorLogged : Bool
deriving DecidableEq

/-- `LocatorBridgeNode::setSeedCallback` (locator_bridge_node.cpp lines
398-422): a pose in a frame other than `MAP_FRAME_ID` is rejected with an
error log and an early return before any session-client operation; a pose
in the map frame builds one session query and issues one
`clientLocalizationSetSeed` call. -/
def setSeedCallback (frameId : String) : SeedResult :=
  if frameId ≠ MAP_FRAME_ID then
    { ops := [], errorLogged := true }
  else
    { ops := [.getSessionQuery, .call "clientLocalizationSetSeed"], errorLogged := false }

/-- C4: a set-seed request whose pose frame differs from the fixed map frame
logs an error and issues zero session-client operations (no session query is
built and no appliance call is made); a request in the map frame issues
exactly one appliance call, `clientLocalizationSetSeed`. -/
theorem set_seed_frame_gate :
    ∀ frameId : String,
      (frameId ≠ MAP_FRAME_ID →
        setSeedCallback frameId = { ops := [], errorLogged := true }) ∧
      (frameId = MAP_FRAME_ID →
        (setSeedCallback frameId).ops.filter isApplianceCall =
          [.call "clientLocalizationSetSeed"] ∧
        (setSeedCallback frameId).errorLogged = false) := by
  intro frameId
  constructor
  · intro hne
    simp [setSeedCallback, hne]
  · intro heq
    simp [setSeedCallback, heq, isApplianceCall, List.filter]

theorem set_seed_frame_gate_witness :
    setSeedCallback "odom" = { ops := [], errorLogged := true } ∧
    (setSeedCallback "map").ops.filter isApplianceCall =
      [.call "clientLocalizationSetSeed"] :=
  ⟨(set_seed_frame_gate "odom").1 (by decide),
   ((set_seed_frame_gate "map").2 rfl).1⟩

/-! ### Map / recording name resolution
(locator_bridge_node.cpp: `clientRecordingStartVisualRecordingCb` lines
424-433, `clientMapStartCb` lines 444-459, `clientMapSendCb` lines 341-351,
`clientMapSetCb` lines 353-363) -/

/-- The name-related mutable state of the bridge node: `last_recording_name_`
and `last_map_name_`. -/
structure BridgeState where
  lastRecordingName : String
  lastMapName : String
deriving DecidableEq

/-- Modelled from the spec: the members `last_recording_name_` and
`last_map_name_` are declared in a header not part of the given sources;
default-constructed std::string members start empty, matching the claim's
"the empty string if no map-start has occurred". -/
def initialBridgeState : BridgeState := { lastRecordingName := "", lastMapName := "" }

/-- `LocatorBridgeNode::clientRecordingStartVisualRecordingCb`
(locator_bridge_node.cpp lines 424-433): stores the request name in
`last_recording_name_` and issues the recording-start call with that name. -/
def clientRecordingStartVisualRecordingCb (s : BridgeState) (reqName : String) :
    BridgeState × String :=
  ({ s with lastRecordingName := reqName }, reqName)

/-- The arguments of the `clientMapStart` appliance call. -/
structure MapStartCall where
  recordingName : String
  clientMapName : String
deriving DecidableEq

/-- `LocatorBridgeNode::clientMapStartCb` (locator_bridge_node.cpp lines
444-459): an empty request recording name falls back to
`last_recording_name_`; an empty request client map name falls back to
"map-from-" ++ the resolved recording name; `last_map_name_` is set to the
resolved client map name and the `clientMapStart` call is issued. -/
def clientMapStartCb (s : BridgeState) (reqRecordingName reqClientMapName : String) :
    BridgeState × MapStartCall :=
  let recordingName := if reqRecordingName.isEmpty then s.lastRecordingName else reqRecordingName
  let clientMapName :=
    if reqClientMapName.isEmpty then "map-from-" ++ recordingName else reqClientMapName
  ({ s with lastMapName := clientMapName },
   { recordingName := recordingName, clientMapName := clientMapName })

/-- `LocatorBridgeNode::clientMapSendCb` (locator_bridge_node.cpp lines
341-351): the `clientMapName` argument of the issued `clientMapSend` call. -/
def clientMapSendCb (s : BridgeState) (reqName : String) : String :=
  if reqName.isEmpty then s.lastMapName else reqName

/-- `LocatorBridgeNode::clientMapSetCb` (locator_bridge_node.cpp lines
353-363): the single config key/value written through the bulk config-set
call. -/
def clientMapSetCb (s : BridgeState) (reqName : String) : String × String :=
  ("ClientLocalization.activeMapName", if reqName.isEmpty then s.lastMapName else reqName)

/-- C5: a map-start request resolves an empty recording name to the last
stored recording name and an empty client map name to "map-from-" ++ the
resolved recording name; in particular, after a recording named "rec1", a
map-start request with empty names issues a `clientMapStart` call with
clientMapName = "map-from-rec1". -/
theorem map_start_name_resolution :
    ∀ (s : BridgeState) (reqRecordingName reqClientMapName : String),
      (clientMapStartCb s reqRecordingName reqClientMapName).2.recordingName =
        (if reqRecordingName.isEmpty then s.lastRecordingName else reqRecordingName) ∧
      (clientMapStartCb s reqRecordingName reqClientMapName).2.clientMapName =
        (if reqClientMapName.isEmpty then
          "map-from-" ++
            (if reqRecordingName.isEmpty then s.lastRecordingName else reqRecordingName)
         else reqClientMapName) ∧
      (clientMapStartCb (clientRecordingStartVisualRecordingCb s "rec1").1 "" "").2.clientMapName =
        "map-from-rec1" :=
  fun s reqRecordingName reqClientMapName => ⟨rfl, rfl, rfl⟩

/-- C10: a send-map or set-map request with an empty name falls back to the
stored last map name (which a map-start request sets to its resolved client
map name, and which starts out empty), while a non-empty request name is
used verbatim; the set-map request writes the resolved name to the
`ClientLocalization.activeMapName` config key. -/
theorem map_send_set_name_fallback :
    ∀ (s : BridgeState) (reqName : String),
      clientMapSendCb s reqName = (if reqName.isEmpty then s.lastMapName else reqName) ∧
      clientMapSetCb s reqName =
        ("ClientLocalization.activeMapName",
         if reqName.isEmpty then s.lastMapName else reqName) ∧
      (∀ reqRecordingName reqClientMapName : String,
        ((clientMapStartCb s reqRecordingName reqClientMapName).1).lastMapName =
          (clientMapStartCb s reqRecordingName reqClientMapName).2.clientMapName) ∧
      initialBridgeState.lastMapName = "" :=
  fun s reqName => ⟨rfl, rfl, fun _ _ => rfl, rfl⟩

/-! ### Laser-scan diagnostic validation
(locator_bridge_node.cpp, `LocatorBridgeNode::checkLaserScan`,
lines 566-593, invoked from `laser_callback` / `laser2_callback` after a
failed send) -/

/-- The value `msg->ranges.size() - 1` of the source: `size()` is an
unsigned 64-bit `size_t`, so the subtraction wraps modulo 2^64 (an empty
ranges array yields 2^64 - 1) before being converted for the floating-point
multiplication, which we model exactly over the rationals. -/
def sizeMinusOne (n : Nat) : ℚ := (((n + 2 ^ 64 - 1) % 2 ^ 64 : Nat) : ℚ)

/-- `LocatorBridgeNode::checkLaserScan` (locator_bridge_node.cpp lines
566-593): the list of invalid-scan error logs emitted. First the angle
consistency check; only if it passes, and the per-sensor
`ClientSensor.<laser>.useIntensities` config entry is readable and equal to
"true", the ranges/intensities length comparison. Real arithmetic is
modelled exactly over the rationals. -/
def checkLaserScan (config : String → Option String) (laser : String)
    (angleMin angleIncrement angleMax : ℚ) (rangesSize intensitiesSize : Nat) :
    List String :=
  if |angleMin + sizeMinusOne rangesSize * angleIncrement - angleMax| >
      |(1 / 2 : ℚ) * angleIncrement| then
    ["LaserScan message is INVALID: angle consistency"]
  else if config ("ClientSensor." ++ laser ++ ".useIntensities") = some "true" ∧
      rangesSize ≠ intensitiesSize then
    ["LaserScan message is INVALID: ranges.size unequal intensities.size"]
  else []

/-- Counterexample to C6 as stated: an empty ranges array. The claim's
formula |angle_min + (ranges.length - 1) * angle_increment - angle_max| with
angle_min = 0, angle_increment = 1, angle_max = -1 and ranges.length = 0
evaluates to |0 + (0 - 1) * 1 - (-1)| = 0, within the half-increment
tolerance, so the claim says the scan passes; the code computes
`ranges.size() - 1` in unsigned arithmetic, getting 2^64 - 1, and logs an
invalid-scan error. -/
theorem laser_scan_check_counterexample :
    checkLaserScan (fun _ => none) "laser" 0 1 (-1) 0 0 ≠ [] ∧
    |(0 : ℚ) + ((0 : ℚ) - 1) * 1 - (-1)| ≤ |(1 / 2 : ℚ) * 1| := by
  constructor
  · rw [checkLaserScan, if_pos]
    · exact fun h => List.noConfusion h
    · rw [sizeMinusOne]
      norm_num [abs_of_nonneg]
  · norm_num [abs_of_nonneg]

/-- C6 (amended): the validation passes a scan exactly when
|angle_min + w(ranges.length) * angle_increment - angle_max| is at most
|0.5 * angle_increment|, where w(n) is the unsigned 64-bit value n - 1 (so
w(n) = n - 1 for nonempty ranges but w(0) = 2^64 - 1), and, when the
per-sensor use-intensities config entry is enabled, additionally requires
ranges and intensities to have equal length; the stated examples (101
ranges, increment 0.01, angle_max 1.0 passes; angle_max 1.5 fails) behave
as claimed. -/
theorem laser_scan_check_characterization :
    ∀ (config : String → Option String) (laser : String)
      (angleMin angleIncrement angleMax : ℚ) (rangesSize intensitiesSize : Nat),
      (checkLaserScan config laser angleMin angleIncrement angleMax
          rangesSize intensitiesSize = [] ↔
        (|angleMin + sizeMinusOne rangesSize * angleIncrement - angleMax| ≤
            |(1 / 2 : ℚ) * angleIncrement| ∧
          (config ("ClientSensor." ++ laser ++ ".useIntensities") = some "true" →
            rangesSize = intensitiesSize))) ∧
      (1 ≤ rangesSize → rangesSize < 2 ^ 64 →
        sizeMinusOne rangesSize = (rangesSize : ℚ) - 1) ∧
      checkLaserScan config "laser" 0 (1 / 100) 1 101 101 = [] ∧
      checkLaserScan config "laser" 0 (1 / 100) (3 / 2) 101 101 ≠ [] := by
  intro config laser angleMin angleIncrement angleMax rangesSize intensitiesSize
  refine ⟨?_, ?_, ?_, ?_⟩
  · rw [checkLaserScan]
    split_ifs with hangle hint
    · exact iff_of_false (by simp) (fun hall => absurd hangle (not_lt.mpr hall.1))
    · exact iff_of_false (by simp) (fun hall => hint.2 (hall.2 hint.1))
    · exact iff_of_true rfl
        ⟨not_lt.mp hangle, fun hv => not_not.mp (fun hne => hint ⟨hv, hne⟩)⟩
  · intro h1 h2
    rw [sizeMinusOne]
    have hmod : (rangesSize + 2 ^ 64 - 1) % 2 ^ 64 = rangesSize - 1 := by
      omega
    rw [hmod]
    push_cast [h1]
    ring
  · rw [checkLaserScan, if_neg, if_neg]
    · rintro ⟨-, hne⟩
      exact hne rfl
    · rw [sizeMinusOne]
      norm_num [abs_of_nonneg]
  · rw [checkLaserScan, if_pos]
    · exact fun h => List.noConfusion h
    · rw [sizeMinusOne]
      norm_num [abs_of_nonneg, abs_of_nonpos]

theorem laser_scan_check_witness :
    sizeMinusOne 101 = (101 : ℚ) - 1 ∧
    checkLaserScan (fun _ => none) "laser" 0 (1 / 100) 1 101 101 = [] :=
  ⟨((laser_scan_check_characterization (fun _ => none) "laser" 0 (1 / 100) 1 101 101).2.1
      (by norm_num) (by norm_num)),
   (laser_scan_check_characterization (fun _ => none) "laser" 0 (1 / 100) 1 101 101).2.2.1⟩

/-! ### Per-channel sequence counters
(locator_bridge_node.cpp: `laser_callback` lines 281-301, `laser2_callback`
lines 303-323, `odom_callback` lines 325-332; the datagram carries
`++scan_num_`, `++scan2_num_`, `++odom_num_` respectively) -/

/-- The three outbound sensor channels. -/
inductive SendChannel where
  | laser : SendChannel
  | laser2 : SendChannel
  | odom : SendChannel
deriving DecidableEq

/-- The per-channel counters `scan_num_`, `scan2_num_`, `odom_num_`. -/
structure SeqCounters where
  scanNum : Nat
  scan2Num : Nat
  odomNum : Nat
deriving DecidableEq

/-- Modelled from the spec: the counter members are declared in a header not
part of the given sources; the spec's pre-increment with first emitted value
1 fixes their initial value to 0. -/
def initialCounters : SeqCounters := { scanNum := 0, scan2Num := 0, odomNum := 0 }

/-- The counter belonging to one channel. -/
def counterOf (s : SeqCounters) : SendChannel → Nat
  | .laser => s.scanNum
  | .laser2 => s.scan2Num
  | .odom => s.odomNum

/-- Processing one sensor reading on a channel: the datagram converter is
passed the pre-incremented channel counter (`++scan_num_` and friends), so
the counter is bumped and the new value is emitted in the datagram. -/
def processReading (s : SeqCounters) : SendChannel → SeqCounters × Nat
  | .laser => ({ s with scanNum := s.scanNum + 1 }, s.scanNum + 1)
  | .laser2 => ({ s with scan2Num := s.scan2Num + 1 }, s.scan2Num + 1)
  | .odom => ({ s with odomNum := s.odomNum + 1 }, s.odomNum + 1)

/-- Processing a whole trace of sensor readings, collecting for each
reading its channel and the sequence number carried by its datagram. -/
def runReadings (s : SeqCounters) : List SendChannel → List (SendChannel × Nat)
  | [] => []
  | c :: rest =>
    let step := processReading s c
    (c, step.2) :: runReadings step.1 rest

/-- The sequence numbers emitted on one channel over a trace started from
the initial counters. -/
def emittedOn (c : SendChannel) (trace : List SendChannel) : List Nat :=
  ((runReadings initialCounters trace).filter (fun p => decide (p.1 = c))).map (fun p => p.2)

lemma counterOf_process_self (s : SeqCounters) (c : SendChannel) :
    counterOf (processReading s c).1 c = counterOf s c + 1 := by
  cases c <;> rfl

lemma processReading_snd (s : SeqCounters) (c : SendChannel) :
    (processReading s c).2 = counterOf s c + 1 := by
  cases c <;> rfl

lemma counterOf_process_other (s : SeqCounters) (c c2 : SendChannel) (h : c2 ≠ c) :
    counterOf (processReading s c2).1 c = counterOf s c := by
  cases c <;> cases c2 <;> first | rfl | exact absurd rfl h

lemma runReadings_emittedOn (c : SendChannel) :
    ∀ (trace : List SendChannel) (s : SeqCounters),
      ((runReadings s trace).filter (fun p => decide (p.1 = c))).map (fun p => p.2) =
        List.range' (counterOf s c + 1) (trace.countP (fun x => decide (x = c))) := by
  intro trace
  induction trace with
  | nil => intro s; rfl
  | cons c2 rest ih =>
    intro s
    rw [runReadings, List.countP_cons]
    by_cases hc : c2 = c
    · subst hc
      simp [List.filter_cons, processReading_snd, counterOf_process_self, ih,
        List.range'_succ]
    · have hd : decide (c2 = c) = false := decide_eq_false hc
      simp [List.filter_cons, hd, ih, counterOf_process_other s c c2 hc]

/-- C7: each outbound channel keeps its own sequence counter, incremented
exactly once per sensor reading processed with pre-increment semantics: the
sequence numbers emitted on a channel over any trace are exactly
1, 2, ..., k where k is the number of readings on that channel — so the
first datagram carries 1, the numbers are strictly increasing and never
reset; and processing a reading on one channel leaves every other channel's
counter unchanged. -/
theorem sequence_counters_spec :
    ∀ (trace : List SendChannel) (c : SendChannel),
      emittedOn c trace = List.range' 1 (trace.countP (fun x => decide (x = c))) ∧
      ∀ (s : SeqCounters) (c2 : SendChannel), c2 ≠ c →
        counterOf (processReading s c2).1 c = counterOf s c := by
  intro trace c
  constructor
  · have h := runReadings_emittedOn c trace initialCounters
    have h0 : counterOf initialCounters c = 0 := by cases c <;> rfl
    rw [h0] at h
    exact h
  · exact fun s c2 h => counterOf_process_other s c c2 h

theorem sequence_counters_spec_witness :
    emittedOn .laser [.laser, .odom, .laser, .laser2] =
      List.range' 1 ([SendChannel.laser, .odom, .laser, .laser2].countP
        (fun x => decide (x = SendChannel.laser))) ∧
    counterOf (processReading initialCounters .odom).1 .laser =
      counterOf initialCounters .laser :=
  ⟨(sequence_counters_spec [.laser, .odom, .laser, .laser2] .laser).1,
   (sequence_counters_spec [.laser, .odom, .laser, .laser2] .laser).2
     initialCounters .odom (by decide)⟩

/-! ### Scan-time derivation for laser readings
(locator_bridge_node.cpp, `laser_callback` lines 281-290 and
`laser2_callback` lines 303-312; `prev_laser_timestamp_` /
`prev_laser2_timestamp_` start at time zero) -/

/-- One step of the scan-time logic of `laser_callback`: a reading is a pair
(header timestamp, scan_time), times in seconds modelled over ℚ.  If the
reading's scan_time is zero (unset), it is set to the delta from the stored
previous timestamp when that is nonzero, and the stored timestamp is updated
to this reading's timestamp; a reading with nonzero scan_time is left
unchanged and does not touch the stored timestamp.  Returns the encoded
scan_time and the new stored timestamp. -/
def laserStep (prev : ℚ) (reading : ℚ × ℚ) : ℚ × ℚ :=
  if reading.2 = 0 then
    (if prev ≠ 0 then reading.1 - prev else 0, reading.1)
  else (reading.2, prev)

/-- The scan_time values encoded for a whole trace of readings, threading
the stored previous timestamp. -/
def runLaserAux (prev : ℚ) : List (ℚ × ℚ) → List ℚ
  | [] => []
  | reading :: rest =>
    let step := laserStep prev reading
    step.1 :: runLaserAux step.2 rest

/-- The scan_time values encoded for a trace of readings on one laser
channel, starting from the default-constructed previous timestamp (time
zero). -/
def runLaser (trace : List (ℚ × ℚ)) : List ℚ := runLaserAux 0 trace

/-- The timestamp the code has stored after a trace: the timestamp of the
most recent reading whose scan_time was unset, or the start value when there
is none (readings with scan_time already set do not update it). -/
def lastUnsetTimestampFrom (start : ℚ) (trace : List (ℚ × ℚ)) : ℚ :=
  (((trace.filter (fun r => decide (r.2 = 0))).getLast?).map Prod.fst).getD start

/-- Counterexample to C8 as stated: readings (timestamp 10, unset),
(timestamp 20, scan_time 5), (timestamp 30, unset).  The claim says the
third reading's scan-time becomes the delta since the previous reading,
30 - 20 = 10; the code encodes 30 - 10 = 20, because the stored previous
timestamp is only updated by readings whose scan-time was unset. -/
theorem laser_scan_time_counterexample :
    runLaser [(10, 0), (20, 5), (30, 0)] = [0, 5, 20] ∧
    (30 : ℚ) - 20 = 10 ∧ ((20 : ℚ) ≠ 10) := by
  refine ⟨?_, by norm_num, by norm_num⟩
  rw [runLaser, runLaserAux, runLaserAux, runLaserAux, runLaserAux]
  norm_num [laserStep]

lemma getLast_map_getD_cons (start : ℚ) (r : ℚ × ℚ) (fl : List (ℚ × ℚ)) :
    (((r :: fl).getLast?).map Prod.fst).getD start = ((fl.getLast?).map Prod.fst).getD r.1 := by
  induction fl generalizing r with
  | nil => rfl
  | cons b bs ih =>
    rw [List.getLast?_cons_cons]
    cases hl : (b :: bs).getLast? with
    | none => simp at hl
    | some w => rfl

lemma lastUnsetTimestampFrom_cons (start : ℚ) (r : ℚ × ℚ) (rest : List (ℚ × ℚ)) :
    lastUnsetTimestampFrom start (r :: rest) =
      lastUnsetTimestampFrom (if r.2 = 0 then r.1 else start) rest := by
  rw [lastUnsetTimestampFrom, lastUnsetTimestampFrom, List.filter_cons]
  by_cases h : r.2 = 0
  · rw [if_pos h, if_pos (by simp [h] : decide (r.2 = 0) = true)]
    exact getLast_map_getD_cons start r _
  · rw [if_neg h, if_neg (by simp [h])]

lemma laserStep_newPrev (prev : ℚ) (r : ℚ × ℚ) :
    (laserStep prev r).2 = if r.2 = 0 then r.1 else prev := by
  rw [laserStep]
  by_cases h : r.2 = 0
  · rw [if_pos h, if_pos h]
  · rw [if_neg h, if_neg h]

lemma runLaserAux_getD (r0 : ℚ × ℚ) :
    ∀ (trace : List (ℚ × ℚ)) (prev : ℚ) (i : Nat), i < trace.length →
      (runLaserAux prev trace).getD i 0 =
        (if (trace.getD i r0).2 = 0 then
          (if lastUnsetTimestampFrom prev (trace.take i) ≠ 0 then
            (trace.getD i r0).1 - lastUnsetTimestampFrom prev (trace.take i)
           else 0)
         else (trace.getD i r0).2) := by
  intro trace
  induction trace with
  | nil => intro prev i h; cases h
  | cons r rest ih =>
    intro prev i h
    cases i with
    | zero =>
      simp only [runLaserAux, List.getD_cons_zero, List.take_zero]
      rw [show lastUnsetTimestampFrom prev [] = prev from rfl, laserStep]
      by_cases hr : r.2 = 0
      · rw [if_pos hr, if_pos hr]
      · rw [if_neg hr, if_neg hr]
    | succ j =>
      have hj : j < rest.length := Nat.lt_of_succ_lt_succ h
      simp only [runLaserAux, List.getD_cons_succ, List.take_succ_cons]
      rw [lastUnsetTimestampFrom_cons]
      rw [ih (laserStep prev r).2 j hj, laserStep_newPrev]

/-- C8 (amended): for a trace of laser readings on one channel, a reading
with unset (zero) scan-time is encoded with scan-time equal to the delta
between its timestamp and the timestamp of the most recent *earlier reading
whose scan-time was also unset* (readings arriving with scan-time already
set do not update the stored timestamp), and is left unset when there is no
such earlier reading — or when the stored timestamp is zero, as at the start
of the channel; a reading whose scan-time is already set is encoded
unchanged. -/
theorem laser_scan_time_characterization :
    ∀ (trace : List (ℚ × ℚ)) (i : Nat), i < trace.length →
      (runLaser trace).getD i 0 =
        (if (trace.getD i (0, 0)).2 = 0 then
          (if lastUnsetTimestampFrom 0 (trace.take i) ≠ 0 then
            (trace.getD i (0, 0)).1 - lastUnsetTimestampFrom 0 (trace.take i)
           else 0)
         else (trace.getD i (0, 0)).2) :=
  fun trace i h => runLaserAux_getD (0, 0) trace 0 i h

theorem laser_scan_time_characterization_witness :
    (2 : Nat) < ([((10 : ℚ), (0 : ℚ)), (20, 5), (30, 0)]).length ∧
    (runLaser [(10, 0), (20, 5), (30, 0)]).getD 2 0 =
      (if (([((10 : ℚ), (0 : ℚ)), (20, 5), (30, 0)]).getD 2 (0, 0)).2 = 0 then
        (if lastUnsetTimestampFrom 0 (([((10 : ℚ), (0 : ℚ)), (20, 5), (30, 0)]).take 2) ≠ 0 then
          (([((10 : ℚ), (0 : ℚ)), (20, 5), (30, 0)]).getD 2 (0, 0)).1 -
            lastUnsetTimestampFrom 0 (([((10 : ℚ), (0 : ℚ)), (20, 5), (30, 0)]).take 2)
         else 0)
       else (([((10 : ℚ), (0 : ℚ)), (20, 5), (30, 0)]).getD 2 (0, 0)).2) :=
  ⟨by norm_num,
   laser_scan_time_characterization [(10, 0), (20, 5), (30, 0)] 2 (by norm_num)⟩

/-! ### Telemetry decode loop and partial-datagram behaviour
(receiving_interface.cpp: `ReceivingInterface::ReceivingInterface` lines
32-45 configures the stream-backed binary reader to throw
`std::ios_base::failure` on underflow; `ReceivingInterface::onReadEvent`
lines 53-70 runs `while (available) tryToParseData(binary_reader_)` and
catches that exception as "not yet completely transmitted, will
automatically retry after more data is available") -/

/-- The socket-fed byte stream behind the binary reader: the bytes delivered
so far and the read position.  Extracting a byte advances the position;
extraction past the end throws, and — as with the std::istream-backed
reader of the source — bytes already extracted before the throw are not
restored. -/
structure ByteStream where
  data : List Nat
  pos : Nat
deriving DecidableEq

/-- Bytes delivered but not yet extracted (`ccm_socket_.available()`). -/
def availableBytes (s : ByteStream) : Nat := s.data.length - s.pos

/-- Extract one byte: advances the position, or throws (error value) at end
of buffered data, leaving the position where it was — earlier extractions of
the same record are not undone. -/
def readByte (s : ByteStream) : Except ByteStream (Nat × ByteStream) :=
  match s.data.get? s.pos with
  | some b => .ok (b, { data := s.data, pos := s.pos + 1 })
  | none => .error s

/-- Extract `n` bytes; on underflow the error carries the stream with every
byte extracted so far consumed. -/
def readBytesN (n : Nat) (s : ByteStream) : Except ByteStream (List Nat × ByteStream) :=
  match n with
  | 0 => .ok ([], s)
  | n + 1 =>
    match readByte s with
    | .error s2 => .error s2
    | .ok (b, s2) =>
      match readBytesN n s2 with
      | .error s3 => .error s3
      | .ok (bs, s3) => .ok (b :: bs, s3)

/-- Modelled from the spec: the per-record decode of the datagram converter
(`rosmsgs_datagram_converter.cpp`, not among the given sources).  The spec
describes each record as fixed-width header fields with inline
count-prefixed variable sections; we model the minimal such record — one
count byte followed by that many payload bytes, the payload being the
decoded message.  The stream semantics are those of the source's
exception-throwing binary reader. -/
def tryToParseData (s : ByteStream) : Except ByteStream (List Nat × ByteStream) :=
  match readByte s with
  | .error s2 => .error s2
  | .ok (count, s2) => readBytesN count s2

/-- `ReceivingInterface::onReadEvent` (receiving_interface.cpp lines 53-70):
while bytes are available, attempt one record decode; on success publish the
message and loop; on the underflow exception stop this wake-up, keeping the
stream as the failed attempt left it (the catch block at lines 63-66 does
not restore it).  Fuel bounds the loop; one unit per available byte
suffices. -/
def onReadEvent : Nat → ByteStream → ByteStream × List (List Nat)
  | 0, s => (s, [])
  | fuel + 1, s =>
    if availableBytes s = 0 then (s, [])
    else
      match tryToParseData s with
      | .ok (msg, s2) =>
        let next := onReadEvent fuel s2
        (next.1, msg :: next.2)
      | .error s2 => (s2, [])

/-- Deliver a sequence of byte chunks, one readable notification per chunk,
collecting all published messages. -/
def feedEvents (s : ByteStream) : List (List Nat) → List (List Nat)
  | [] => []
  | chunk :: rest =>
    let s2 : ByteStream := { data := s.data ++ chunk, pos := s.pos }
    let step := onReadEvent (availableBytes s2 + 1) s2
    step.2 ++ feedEvents step.1 rest

/-- All bytes delivered in a single notification. -/
def decodeWholeStream (bytes : List Nat) : List (List Nat) :=
  feedEvents { data := [], pos := 0 } [bytes]

/-- The same bytes delivered one byte per notification. -/
def decodeByteAtATime (bytes : List Nat) : List (List Nat) :=
  feedEvents { data := [], pos := 0 } (bytes.map (fun b => [b]))

/-- C1 is a code bug: the stream [2, 7, 9] (a record announcing a 2-byte
payload, then the payload) decodes to the single message [7, 9] when
delivered whole, but to no message at all when delivered one byte per read
event — each failed attempt consumes the bytes it extracted (the count byte,
then on later events the payload bytes misread as counts), so the retry
promised by the catch block at receiving_interface.cpp lines 63-66 never
sees the complete record. -/
theorem partial_datagram_data_loss :
    decodeWholeStream [2, 7, 9] = [[7, 9]] ∧
    decodeByteAtATime [2, 7, 9] = [] ∧
    decodeWholeStream [2, 7, 9] ≠ decodeByteAtATime [2, 7, 9] := by
  refine ⟨rfl, rfl, ?_⟩
  intro h
  rw [show decodeWholeStream [2, 7, 9] = [[7, 9]] from rfl,
    show decodeByteAtATime [2, 7, 9] = [] from rfl] at h
  exact List.noConfusion h

/-! ### Decode-error containment in the read-event handler
(receiving_interface.cpp, `ReceivingInterface::onReadEvent`, lines 53-70:
the catch-all clause logs "Caught exception in ReceivingInterface!" and the
reactor keeps dispatching) -/

/-- A decode failure: the underflow signal (`std::ios_base::failure`, record
not yet completely transmitted) or any other decode error. -/
inductive DecodeError where
  | incomplete : DecodeError
  | malformed : DecodeError
deriving DecidableEq

/-- Outcome of one readable notification: messages published during the
event, log lines emitted, whether an exception escaped the handler, and
which decode failure (if any) ended the event's loop. -/
structure EventResult where
  msgs : List Nat
  logs : List String
  propagated : Bool
  failed : Option DecodeError
deriving DecidableEq

/-- The exception-propagating `while (available) tryToParseData` loop of
`onReadEvent`, for an arbitrary channel decoder `decode`: successful decodes
accumulate messages; a decode failure aborts the loop with the failure
value.  Fuel bounds the loop. -/
def parseLoop (decode : List Nat → Except DecodeError (Nat × List Nat)) :
    Nat → List Nat → List Nat × List Nat × Option DecodeError
  | 0, buf => ([], buf, none)
  | fuel + 1, buf =>
    if buf.isEmpty then ([], buf, none)
    else
      match decode buf with
      | .ok (m, rest) =>
        let next := parseLoop decode fuel rest
        (m :: next.1, next.2.1, next.2.2)
      | .error e => ([], buf, some e)

/-- The full read-event handler with its try/catch translated explicitly
(receiving_interface.cpp lines 56-69): the underflow failure is caught
silently; every other exception is caught by the catch-all clause, which
logs and returns normally.  No branch re-throws, so `propagated` records
whether an exception escapes the handler. -/
def handleReadEvent (decode : List Nat → Except DecodeError (Nat × List Nat))
    (buf : List Nat) : EventResult × List Nat :=
  let res := parseLoop decode (buf.length + 1) buf
  match res.2.2 with
  | none => ({ msgs := res.1, logs := [], propagated := false, failed := none }, res.2.1)
  | some .incomplete =>
    ({ msgs := res.1, logs := [], propagated := false, failed := some .incomplete }, res.2.1)
  | some .malformed =>
    ({ msgs := res.1, logs := ["Caught exception in ReceivingInterface!"],
       propagated := false, failed := some .malformed }, res.2.1)

/-- The receive dispatcher: one handler invocation per readiness event, the
buffer threaded through (new bytes appended before each event). -/
def runDispatcher (decode : List Nat → Except DecodeError (Nat × List Nat))
    (buf : List Nat) : List (List Nat) → List EventResult
  | [] => []
  | chunk :: rest =>
    let step := handleReadEvent decode (buf ++ chunk)
    step.1 :: runDispatcher decode step.2 rest

lemma handleReadEvent_contained (decode : List Nat → Except DecodeError (Nat × List Nat))
    (buf : List Nat) :
    (handleReadEvent decode buf).1.propagated = false ∧
    ((handleReadEvent decode buf).1.failed = some .malformed →
      (handleReadEvent decode buf).1.logs = ["Caught exception in ReceivingInterface!"]) := by
  rw [handleReadEvent]
  cases hres : (parseLoop decode (buf.length + 1) buf).2.2 with
  | none => exact ⟨rfl, fun h => Option.noConfusion h⟩
  | some e =>
    cases e with
    | incomplete => exact ⟨rfl, fun h => DecodeError.noConfusion (Option.some.inj h)⟩
    | malformed => exact ⟨rfl, fun _ => rfl⟩

/-- C9: for every channel decoder, every buffer state and every sequence of
readiness events, the read-event handler never propagates an exception (a
decode error other than the incomplete signal is caught by the catch-all
clause and logged), and the dispatcher stays alive: every event of the
sequence is processed, producing exactly one result each. -/
theorem decode_error_containment :
    ∀ (decode : List Nat → Except DecodeError (Nat × List Nat))
      (buf : List Nat) (events : List (List Nat)),
      (runDispatcher decode buf events).length = events.length ∧
      ∀ r ∈ runDispatcher decode buf events,
        r.propagated = false ∧
        (r.failed = some .malformed → r.logs = ["Caught exception in ReceivingInterface!"]) := by
  intro decode buf events
  induction events generalizing buf with
  | nil => exact ⟨rfl, fun r hr => absurd hr (List.not_mem_nil r)⟩
  | cons chunk rest ih =>
    rw [runDispatcher]
    refine ⟨?_, ?_⟩
    · rw [List.length_cons, List.length_cons,
        (ih (handleReadEvent decode (buf ++ chunk)).2).1]
    · intro r hr
      rcases List.mem_cons.mp hr with hhead | htail
      · rw [hhead]
        exact handleReadEvent_contained decode (buf ++ chunk)
      · exact (ih (handleReadEvent decode (buf ++ chunk)).2).2 r htail

/-- The decoder that always fails with a non-incomplete error. -/
def alwaysMalformed : List Nat → Except DecodeError (Nat × List Nat) :=
  fun _ => .error .malformed

/-- The result produced for each event when every decode attempt fails with
a non-incomplete error. -/
def malformedEventResult : EventResult :=
  { msgs := [], logs := ["Caught exception in ReceivingInterface!"],
    propagated := false, failed := some .malformed }

theorem decode_error_containment_witness :
    (runDispatcher alwaysMalformed [] [[1], [2]]).length = 2 ∧
    malformedEventResult.propagated = false ∧
    (malformedEventResult.failed = some .malformed →
      malformedEventResult.logs = ["Caught exception in ReceivingInterface!"]) :=
  ⟨(decode_error_containment alwaysMalformed [] [[1], [2]]).1,
   (decode_error_containment alwaysMalformed [] [[1], [2]]).2
     malformedEventResult (by decide)⟩

end LocatorBridge
